import Mathlib

/-!
Shallow embedding of the cart/checkout core of the shop-billing POS frontend
(`POS` component): cart operations, totals computation, barcode lookup, and
the checkout flow, together with proofs of the specified properties.

Prices are modelled as rationals, quantities as integers (they are JavaScript
numbers in the source; the cart operations keep them positive). Network
round-trips are modelled by passing the backend's response as an explicit
argument to the state-transition function, and the transitions record which
requests they issue.
-/

/-- Mirror of the `Product` interface (`types/index.ts`). -/
structure Product where
  id : Nat
  name : String
  price : ℚ
  stock : Int
  barcode : Option String
  created_at : String
deriving DecidableEq

/-- Mirror of the `CartItem` interface (`types/index.ts`). -/
structure CartItem where
  product_id : Nat
  name : String
  price : ℚ
  quantity : Int
deriving DecidableEq

/-- Mirror of the `InvoiceItem` interface (`types/index.ts`). -/
structure InvoiceItem where
  id : Nat
  product_id : Nat
  quantity : Int
  unit_price : ℚ
  product : Product
deriving DecidableEq

/-- Mirror of the `Invoice` interface (`types/index.ts`). -/
structure Invoice where
  id : Nat
  customer_name : String
  total_amount : ℚ
  tax_amount : ℚ
  payment_method : String
  created_at : String
  items : List InvoiceItem
deriving DecidableEq

/-- The React component state of `POS` that the cart/checkout logic touches. -/
structure PosState where
  products : List Product
  cart : List CartItem
  customerName : String
  paymentMethod : String
  barcodeInput : String
  showReceipt : Bool
  currentInvoice : Option Invoice
deriving DecidableEq

/-- `addToCart` from `POS`: merge by product id, increment an existing line,
otherwise append a fresh line with quantity 1 snapshotting the product's
current name and price. -/
def addToCart (cart : List CartItem) (product : Product) : List CartItem :=
  match cart.find? (fun item => item.product_id == product.id) with
  | some _ =>
      cart.map (fun item =>
        if item.product_id == product.id then
          { item with quantity := item.quantity + 1 }
        else item)
  | none =>
      cart ++ [{ product_id := product.id, name := product.name,
                 price := product.price, quantity := 1 }]

/-- `updateQuantity` from `POS`: no-op when no line matches; removal when the
new quantity would be ≤ 0; otherwise set the new quantity. -/
def updateQuantity (cart : List CartItem) (productId : Nat) (change : Int) :
    List CartItem :=
  match cart.find? (fun item => item.product_id == productId) with
  | none => cart
  | some item =>
      let newQuantity := item.quantity + change
      if newQuantity ≤ 0 then
        cart.filter (fun item => item.product_id != productId)
      else
        cart.map (fun it =>
          if it.product_id == productId then { it with quantity := newQuantity }
          else it)

/-- `removeFromCart` from `POS`. -/
def removeFromCart (cart : List CartItem) (productId : Nat) : List CartItem :=
  cart.filter (fun item => item.product_id != productId)

/-- `clearCart` from `POS`: clears only when the cart is non-empty and the
operator confirms the dialog. -/
def clearCart (cart : List CartItem) (confirmed : Bool) : List CartItem :=
  if cart.isEmpty then cart
  else if confirmed then [] else cart

/-- The result record of `calculateTotals`. -/
structure Totals where
  subtotal : ℚ
  tax : ℚ
  total : ℚ
deriving DecidableEq

/-- The `taxRate` constant from `calculateTotals`. -/
def taxRate : ℚ := 8 / 100

/-- `calculateTotals` from `POS`. -/
def calculateTotals (cart : List CartItem) : Totals :=
  let subtotal :=
    cart.foldl (fun sum item => sum + item.price * (item.quantity : ℚ)) 0
  let tax := subtotal * taxRate
  let total := subtotal + tax
  { subtotal := subtotal, tax := tax, total := total }

/-- JavaScript `a || b` on a string: an empty string is falsy. -/
def jsOrString (a : String) (b : String) : String :=
  if a = "" then b else a

/-- JavaScript `a || b` where `a` is an optional string (`undefined` or a
string value): `undefined` and the empty string are falsy. -/
def jsOrOpt (a : Option String) (b : String) : String :=
  match a with
  | some s => jsOrString s b
  | none => b

/-- The ways the `axios.post` of checkout can fail, as the `catch` branch of
`processCheckout` distinguishes them: an axios error carrying an optional
structured `detail` from the response body and a transport-level `message`,
or a plain JavaScript `Error`. -/
inductive CheckoutFailure where
  | axios (detail : Option String) (message : String)
  | jsError (message : String)
deriving DecidableEq

/-- The backend's reaction to a submitted checkout request. -/
inductive BackendResponse where
  | success (invoice : Invoice) (freshProducts : List Product)
  | failure (f : CheckoutFailure)
deriving DecidableEq

/-- Whether the backend accepted the checkout. -/
def BackendResponse.isSuccess : BackendResponse → Bool
  | .success _ _ => true
  | .failure _ => false

/-- The operator-facing message computed by the `catch` branch of
`processCheckout`: `error.response?.data?.detail || error.message ||
'Checkout failed'` for an axios error, `error.message` for a plain `Error`. -/
def checkoutErrorMessage : CheckoutFailure → String
  | .axios detail message => jsOrOpt detail (jsOrString message "Checkout failed")
  | .jsError message => message

/-- Which branch of `processCheckout` ran. -/
inductive CheckoutOutcome where
  | emptyCart
  | confirmed
  | rejected
deriving DecidableEq

/-- Observable effect of one `processCheckout` invocation: the new component
state, which network requests were issued, and the alert shown, if any. -/
structure CheckoutResult where
  state : PosState
  outcome : CheckoutOutcome
  networkCall : Bool
  catalogRefetch : Bool
  alertMessage : Option String
deriving DecidableEq

/-- `processCheckout` from `POS`. An empty cart alerts and returns before any
request. Otherwise the cart snapshot is posted; on success the invoice is
stored, the receipt shown, the cart cleared and the catalog re-fetched
(`loadProducts`, whose fresh result is carried by the response); on failure
the state is left untouched and the three-tier error message is alerted. -/
def processCheckout (s : PosState) (resp : BackendResponse) : CheckoutResult :=
  if s.cart.isEmpty then
    { state := s, outcome := .emptyCart, networkCall := false,
      catalogRefetch := false, alertMessage := some "Cart is empty!" }
  else
    match resp with
    | .success invoice freshProducts =>
        { state :=
            { s with
              currentInvoice := some invoice
              showReceipt := true
              cart := []
              products := freshProducts },
          outcome := .confirmed, networkCall := true, catalogRefetch := true,
          alertMessage := none }
    | .failure f =>
        { state := s, outcome := .rejected, networkCall := true,
          catalogRefetch := false,
          alertMessage := some (checkoutErrorMessage f) }

/-- The ways the `axios.get` of a barcode lookup can end, as `searchByBarcode`
distinguishes them: a product, an HTTP error response with a status and an
optional structured `detail`, or a transport failure with no response. -/
inductive LookupResult where
  | found (p : Product)
  | httpError (status : Nat) (detail : Option String) (message : String)
  | networkError (message : String)
deriving DecidableEq

/-- Observable effect of one `searchByBarcode` invocation. -/
structure SearchResult where
  state : PosState
  networkCall : Bool
  alertMessage : Option String
deriving DecidableEq

/-- The operator-facing message computed by the `catch` branch of
`searchByBarcode`: a 404 response gives `'Product not found!'`, any other
axios failure gives `error.response?.data?.detail || error.message ||
'Search failed'`. -/
def searchErrorMessage : LookupResult → Option String
  | .found _ => none
  | .httpError status detail message =>
      some (if status = 404 then "Product not found!"
            else jsOrOpt detail (jsOrString message "Search failed"))
  | .networkError message => some (jsOrOpt none (jsOrString message "Search failed"))

/-- JavaScript `String.prototype.trim`, modelled on the character list:
leading and trailing whitespace removed. -/
def jsTrim (s : String) : String :=
  String.mk
    (((s.data.dropWhile Char.isWhitespace).reverse.dropWhile
        Char.isWhitespace).reverse)

/-- `searchByBarcode` from `POS`: a blank input (`!barcodeInput.trim()`)
returns before any request; a found product is added to the cart and the
input cleared; any failure leaves the state untouched and alerts the
computed message. -/
def searchByBarcode (s : PosState) (res : LookupResult) : SearchResult :=
  if jsTrim s.barcodeInput = "" then
    { state := s, networkCall := false, alertMessage := none }
  else
    match res with
    | .found p =>
        { state :=
            { s with
              cart := addToCart s.cart p
              barcodeInput := "" },
          networkCall := true, alertMessage := none }
    | r =>
        { state := s, networkCall := true, alertMessage := searchErrorMessage r }

/-- Product ids of the cart lines, in display order. -/
def cartIds (cart : List CartItem) : List Nat :=
  cart.map (fun item => item.product_id)

/-- The cart lines for one product id, in order. -/
def linesFor (cart : List CartItem) (pid : Nat) : List CartItem :=
  cart.filter (fun item => item.product_id == pid)

/-- The cart invariants of the spec: no two lines share a product id and
every line has quantity ≥ 1. -/
def WFCart (cart : List CartItem) : Prop :=
  (cartIds cart).Nodup ∧ ∀ item ∈ cart, 1 ≤ item.quantity

instance : DecidablePred WFCart := fun _cart =>
  inferInstanceAs (Decidable (_ ∧ _))

/-! Concrete values used by witnesses. -/

/-- A concrete catalog product. -/
def pA : Product :=
  { id := 1, name := "Widget", price := 10, stock := 5,
    barcode := some "111", created_at := "2024-01-01" }

/-- A second concrete catalog product. -/
def pB : Product :=
  { id := 2, name := "Gizmo", price := 5, stock := 7,
    barcode := none, created_at := "2024-01-01" }

/-- A concrete cart line for `pA`. -/
def sampleItem : CartItem :=
  { product_id := 1, name := "Widget", price := 10, quantity := 1 }

/-- A concrete component state holding a one-line cart. -/
def sampleState : PosState :=
  { products := [pA, pB], cart := [sampleItem],
    customerName := "Alice", paymentMethod := "card",
    barcodeInput := "111", showReceipt := false, currentInvoice := none }

/-- A concrete component state with an empty cart. -/
def emptyCartState : PosState :=
  { products := [pA, pB], cart := [],
    customerName := "Walk-in Customer", paymentMethod := "cash",
    barcodeInput := "", showReceipt := false, currentInvoice := none }

/-- A concrete invoice as the backend could return it. -/
def sampleInvoice : Invoice :=
  { id := 7, customer_name := "Alice", total_amount := 108 / 10,
    tax_amount := 8 / 10, payment_method := "card",
    created_at := "2024-01-02", items := [] }

/-! Helper lemmas. -/

lemma cart_cons_of_ne_nil {s : PosState} (h : s.cart ≠ []) :
    ∃ x xs, s.cart = x :: xs := by
  cases hc : s.cart with
  | nil => exact absurd hc h
  | cons x xs => exact ⟨x, xs, rfl⟩

lemma processCheckout_of_ne_nil (s : PosState) (resp : BackendResponse)
    (h : s.cart ≠ []) :
    processCheckout s resp =
      match resp with
      | .success invoice freshProducts =>
          { state :=
              { s with
                currentInvoice := some invoice
                showReceipt := true
                cart := []
                products := freshProducts },
            outcome := .confirmed, networkCall := true, catalogRefetch := true,
            alertMessage := none }
      | .failure f =>
          { state := s, outcome := .rejected, networkCall := true,
            catalogRefetch := false,
            alertMessage := some (checkoutErrorMessage f) } := by
  obtain ⟨x, xs, hc⟩ := cart_cons_of_ne_nil h
  unfold processCheckout
  rw [hc]
  rfl

/-- Claim C3: checkout on an empty cart fails immediately with the empty-cart
outcome, issues no network request, and leaves the state unchanged. -/
theorem checkout_empty_cart_no_network (s : PosState) (resp : BackendResponse)
    (h : s.cart = []) :
    (processCheckout s resp).outcome = .emptyCart ∧
    (processCheckout s resp).networkCall = false ∧
    (processCheckout s resp).state = s ∧
    (processCheckout s resp).alertMessage = some "Cart is empty!" := by
  unfold processCheckout
  rw [h]
  exact ⟨rfl, rfl, rfl, rfl⟩

theorem checkout_empty_cart_no_network_witness :
    emptyCartState.cart = [] ∧
      (processCheckout emptyCartState
          (.success sampleInvoice [])).networkCall = false :=
  ⟨rfl, (checkout_empty_cart_no_network emptyCartState
      (.success sampleInvoice []) rfl).2.1⟩

/-- Claim C1: on a non-empty cart, the cart is cleared and the catalog
re-fetched exactly when the backend returns an invoice; the cart is left
untouched on every non-confirmed outcome, it is empty immediately after a
confirmed checkout, and a second checkout attempt from the post-confirmation
state (before any new add) takes the empty-cart branch without a network
call. -/
theorem checkout_confirmed_iff_success (s : PosState) (resp : BackendResponse)
    (h : s.cart ≠ []) :
    ((processCheckout s resp).outcome = .confirmed ↔ resp.isSuccess = true) ∧
    ((processCheckout s resp).state.cart = [] ↔ resp.isSuccess = true) ∧
    ((processCheckout s resp).catalogRefetch = true ↔ resp.isSuccess = true) ∧
    (processCheckout s resp).networkCall = true ∧
    ((processCheckout s resp).outcome ≠ .confirmed →
        (processCheckout s resp).state.cart = s.cart) ∧
    (resp.isSuccess = true → ∀ resp2 : BackendResponse,
        ((processCheckout (processCheckout s resp).state resp2).outcome
            = .emptyCart ∧
         (processCheckout (processCheckout s resp).state resp2).networkCall
            = false)) := by
  rw [processCheckout_of_ne_nil s resp h]
  cases resp with
  | success invoice freshProducts =>
      refine ⟨by simp [BackendResponse.isSuccess], by simp [BackendResponse.isSuccess],
        by simp [BackendResponse.isSuccess], rfl, ?_, ?_⟩
      · intro hno
        exact absurd rfl hno
      · intro _ resp2
        exact ⟨rfl, rfl⟩
  | failure f =>
      refine ⟨by simp [BackendResponse.isSuccess], ?_, ?_, rfl, ?_, ?_⟩
      · simpa [BackendResponse.isSuccess] using h
      · simp [BackendResponse.isSuccess]
      · intro _; rfl
      · intro hsucc
        simp [BackendResponse.isSuccess] at hsucc

theorem checkout_confirmed_iff_success_witness :
    sampleState.cart ≠ [] ∧
      (processCheckout sampleState (.success sampleInvoice [])).state.cart = [] :=
  ⟨by decide,
    (checkout_confirmed_iff_success sampleState (.success sampleInvoice [])
        (by decide)).2.1.2 rfl⟩

/-- Claim C2: a backend-rejected checkout (axios error: validation failure or
transport failure) leaves the component state, and so the cart contents,
exactly as before the attempt, and the alerted message follows the
three-tier fallback: the structured `detail` when present (non-blank), else
the transport-level `message` when non-blank, else the generic
`"Checkout failed"`. -/
theorem checkout_rejected_preserves_cart (s : PosState)
    (d : Option String) (m : String) (h : s.cart ≠ []) :
    ((processCheckout s (.failure (.axios d m))).state = s) ∧
    (∀ d0, d = some d0 → d0 ≠ "" →
        (processCheckout s (.failure (.axios d m))).alertMessage = some d0) ∧
    ((d = none ∨ d = some "") → m ≠ "" →
        (processCheckout s (.failure (.axios d m))).alertMessage = some m) ∧
    ((d = none ∨ d = some "") → m = "" →
        (processCheckout s (.failure (.axios d m))).alertMessage
          = some "Checkout failed") := by
  rw [processCheckout_of_ne_nil s _ h]
  refine ⟨rfl, ?_, ?_, ?_⟩
  · intro d0 hd hne
    subst hd
    simp [checkoutErrorMessage, jsOrOpt, jsOrString, hne]
  · intro hd hm
    rcases hd with hd | hd <;> subst hd <;>
      simp [checkoutErrorMessage, jsOrOpt, jsOrString, hm]
  · intro hd hm
    rcases hd with hd | hd <;> subst hd <;>
      simp [checkoutErrorMessage, jsOrOpt, jsOrString, hm]

theorem checkout_rejected_preserves_cart_witness :
    sampleState.cart ≠ [] ∧
      (processCheckout sampleState
          (.failure (.axios (some "Insufficient stock for Widget")
            "Request failed with status code 400"))).alertMessage
        = some "Insufficient stock for Widget" :=
  ⟨by decide,
    (checkout_rejected_preserves_cart sampleState
        (some "Insufficient stock for Widget")
        "Request failed with status code 400" (by decide)).2.1
      "Insufficient stock for Widget" rfl (by decide)⟩

/-- Claim C10: a confirmed checkout resets only the cart line list; the
customer name and the payment method are left unchanged and carry over to
the next sale, as does the barcode input field. -/
theorem checkout_success_frame (s : PosState) (inv : Invoice)
    (fp : List Product) (h : s.cart ≠ []) :
    (processCheckout s (.success inv fp)).state.cart = [] ∧
    (processCheckout s (.success inv fp)).state.customerName = s.customerName ∧
    (processCheckout s (.success inv fp)).state.paymentMethod = s.paymentMethod ∧
    (processCheckout s (.success inv fp)).state.barcodeInput = s.barcodeInput := by
  rw [processCheckout_of_ne_nil s _ h]
  exact ⟨rfl, rfl, rfl, rfl⟩

theorem checkout_success_frame_witness :
    sampleState.cart ≠ [] ∧
      (processCheckout sampleState
          (.success sampleInvoice [])).state.customerName = "Alice" :=
  ⟨by decide,
    (checkout_success_frame sampleState sampleInvoice [] (by decide)).2.1⟩

/-- Claim C8 counterexample: the code has no duplicate-submission guard.
While a checkout's response is pending the component state is unchanged (the
response is applied only when it arrives), so a second checkout attempt in
that window runs `processCheckout` on the same state; at the concrete
in-flight state `sampleState` the second attempt issues a network call
instead of being rejected client-side before any network call, and no
checkout-in-progress outcome or message exists in the code. -/
theorem duplicate_checkout_not_rejected_cex :
    (processCheckout sampleState
        (.failure (.axios none "network error"))).networkCall = true ∧
    (processCheckout sampleState
        (.failure (.axios none "network error"))).alertMessage
      = some "network error" := by
  decide

/-- Claim C8 amended: the client has no duplicate-submission guard. The
component state is unchanged while a checkout response is pending, so a
second checkout attempt during that window behaves like any checkout on the
current cart: on a non-empty cart it issues another network submission of
the cart snapshot; only the empty-cart check blocks a checkout locally. -/
theorem checkout_no_inflight_guard (s : PosState) (resp : BackendResponse)
    (h : s.cart ≠ []) :
    (processCheckout s resp).networkCall = true ∧
    (processCheckout s resp).outcome ≠ .emptyCart := by
  rw [processCheckout_of_ne_nil s resp h]
  cases resp with
  | success invoice freshProducts => exact ⟨rfl, by simp⟩
  | failure f => exact ⟨rfl, by simp⟩

theorem checkout_no_inflight_guard_witness :
    sampleState.cart ≠ [] ∧
      (processCheckout sampleState
          (.failure (.jsError "boom"))).networkCall = true :=
  ⟨by decide,
    (checkout_no_inflight_guard sampleState (.failure (.jsError "boom"))
        (by decide)).1⟩

lemma find?_eq_none_iff_linesFor_nil (cart : List CartItem) (pid : Nat) :
    cart.find? (fun item => item.product_id == pid) = none ↔
      linesFor cart pid = [] := by
  rw [List.find?_eq_none, linesFor, List.filter_eq_nil_iff]

lemma linesFor_map_presId (f : CartItem → CartItem)
    (hf : ∀ it : CartItem, (f it).product_id = it.product_id)
    (pid : Nat) (cart : List CartItem) :
    linesFor (cart.map f) pid = (linesFor cart pid).map f := by
  unfold linesFor
  induction cart with
  | nil => rfl
  | cons x xs ih =>
      rw [List.map_cons, List.filter_cons, List.filter_cons, hf x]
      by_cases h : (x.product_id == pid) = true
      · rw [if_pos h, if_pos h, List.map_cons, ih]
      · rw [if_neg h, if_neg h, ih]

lemma cartIds_map_presId (f : CartItem → CartItem)
    (hf : ∀ it : CartItem, (f it).product_id = it.product_id)
    (cart : List CartItem) :
    cartIds (cart.map f) = cartIds cart := by
  unfold cartIds
  induction cart with
  | nil => rfl
  | cons x xs ih => rw [List.map_cons, List.map_cons, List.map_cons, hf x, ih]

lemma setQty_presId (pid : Nat) (g : CartItem → Int) (it : CartItem) :
    (if it.product_id == pid then { it with quantity := g it } else it).product_id
      = it.product_id := by
  by_cases h : (it.product_id == pid) = true
  · rw [if_pos h]
  · rw [if_neg h]

lemma addToCart_of_linesFor_nil (cart : List CartItem) (p : Product)
    (h : linesFor cart p.id = []) :
    addToCart cart p
      = cart ++ [{ product_id := p.id, name := p.name, price := p.price,
                   quantity := 1 }] := by
  have hfind := (find?_eq_none_iff_linesFor_nil cart p.id).2 h
  simp only [addToCart, hfind]

lemma addToCart_of_linesFor_ne_nil (cart : List CartItem) (p : Product)
    (h : linesFor cart p.id ≠ []) :
    addToCart cart p
      = cart.map (fun item =>
          if item.product_id == p.id then
            { item with quantity := item.quantity + 1 }
          else item) := by
  cases hfind : cart.find? (fun item => item.product_id == p.id) with
  | none => exact absurd ((find?_eq_none_iff_linesFor_nil cart p.id).1 hfind) h
  | some it => simp only [addToCart, hfind]

lemma linesFor_addToCart_of_ne_nil (cart : List CartItem) (p : Product)
    (h : linesFor cart p.id ≠ []) :
    linesFor (addToCart cart p) p.id
      = (linesFor cart p.id).map
          (fun it => { it with quantity := it.quantity + 1 }) := by
  rw [addToCart_of_linesFor_ne_nil cart p h,
    linesFor_map_presId _ (setQty_presId p.id (fun it => it.quantity + 1)) p.id cart]
  refine List.map_congr_left ?_
  intro a ha
  have hmem := List.mem_filter.1 ha
  rw [if_pos hmem.2]

lemma linesFor_singleton_self (p : Product) (q : Int) :
    linesFor [{ product_id := p.id, name := p.name, price := p.price,
                quantity := q }] p.id
      = [{ product_id := p.id, name := p.name, price := p.price,
           quantity := q }] := by
  simp [linesFor]

lemma linesFor_addToCart_iterate (p : Product) :
    ∀ (n : Nat) (cart : List CartItem), linesFor cart p.id = [] → 0 < n →
      linesFor ((fun c => addToCart c p)^[n] cart) p.id
        = [{ product_id := p.id, name := p.name, price := p.price,
             quantity := (n : Int) }] := by
  intro n
  induction n with
  | zero => intro cart _ hpos; exact absurd hpos (by omega)
  | succ k ih =>
      intro cart h _
      rcases Nat.eq_zero_or_pos k with hk | hk
      · subst hk
        rw [Function.iterate_succ_apply', Function.iterate_zero_apply,
          addToCart_of_linesFor_nil cart p h]
        unfold linesFor
        rw [List.filter_append]
        unfold linesFor at h
        rw [h, List.nil_append]
        have := linesFor_singleton_self p 1
        unfold linesFor at this
        rw [this]
        norm_num
      · rw [Function.iterate_succ_apply']
        have hprev := ih cart h hk
        have hne : linesFor ((fun c => addToCart c p)^[k] cart) p.id ≠ [] := by
          rw [hprev]; exact List.cons_ne_nil _ _
        rw [linesFor_addToCart_of_ne_nil _ p hne, hprev]
        simp only [List.map_cons, List.map_nil]
        norm_cast

/-- Claim C4: `addToCart` increments the existing line's quantity by 1 when a
line for the product id exists, and otherwise appends a new line with
quantity 1 snapshotting the product's current name and price; consequently
`n` consecutive adds of one product to a cart with no line for it leave
exactly one line for that product, with quantity `n` and the snapshotted
name and price. -/
theorem addToCart_merge_quantity :
    (∀ (cart : List CartItem) (p : Product),
        linesFor cart p.id = [] →
        addToCart cart p
          = cart ++ [{ product_id := p.id, name := p.name, price := p.price,
                       quantity := 1 }]) ∧
    (∀ (cart : List CartItem) (p : Product),
        linesFor cart p.id ≠ [] →
        linesFor (addToCart cart p) p.id
          = (linesFor cart p.id).map
              (fun it => { it with quantity := it.quantity + 1 })) ∧
    (∀ (cart : List CartItem) (p : Product) (n : Nat),
        0 < n → linesFor cart p.id = [] →
        linesFor ((fun c => addToCart c p)^[n] cart) p.id
          = [{ product_id := p.id, name := p.name, price := p.price,
               quantity := (n : Int) }]) :=
  ⟨addToCart_of_linesFor_nil, linesFor_addToCart_of_ne_nil,
    fun cart p n hn h => linesFor_addToCart_iterate p n cart h hn⟩

theorem addToCart_merge_quantity_witness :
    linesFor ((fun c => addToCart c pA)^[3] []) pA.id
      = [{ product_id := pA.id, name := pA.name, price := pA.price,
           quantity := ((3 : Nat) : Int) }] :=
  addToCart_merge_quantity.2.2 [] pA 3 (by decide) rfl

lemma linesFor_removeFromCart (cart : List CartItem) (pid : Nat) :
    linesFor (removeFromCart cart pid) pid = [] := by
  unfold linesFor removeFromCart
  rw [List.filter_eq_nil_iff]
  intro x hx
  have hx2 := (List.mem_filter.1 hx).2
  simp only [bne_iff_ne, ne_eq] at hx2
  simp [hx2]

lemma updateQuantity_of_find?_none (cart : List CartItem) (pid : Nat)
    (change : Int)
    (h : cart.find? (fun item => item.product_id == pid) = none) :
    updateQuantity cart pid change = cart := by
  simp only [updateQuantity, h]

lemma updateQuantity_of_find?_some_le (cart : List CartItem) (pid : Nat)
    (change : Int) (item : CartItem)
    (h : cart.find? (fun item => item.product_id == pid) = some item)
    (hle : item.quantity + change ≤ 0) :
    updateQuantity cart pid change
      = cart.filter (fun it => it.product_id != pid) := by
  simp only [updateQuantity, h]
  rw [if_pos hle]

lemma updateQuantity_of_find?_some_pos (cart : List CartItem) (pid : Nat)
    (change : Int) (item : CartItem)
    (h : cart.find? (fun item => item.product_id == pid) = some item)
    (hpos : 0 < item.quantity + change) :
    updateQuantity cart pid change
      = cart.map (fun it =>
          if it.product_id == pid then
            { it with quantity := item.quantity + change }
          else it) := by
  simp only [updateQuantity, h]
  rw [if_neg (by omega)]

/-- Claim C5: `updateQuantity` sets a matching line's quantity to
current + delta; a resulting quantity ≤ 0 removes the line entirely (no
zero-or-negative-quantity line survives any call), a missing line makes the
call a no-op, and `updateQuantity` by −1 on a single quantity-1 line leaves
an empty cart. -/
theorem updateQuantity_delta_semantics (cart : List CartItem) (pid : Nat)
    (change : Int) :
    (cart.find? (fun item => item.product_id == pid) = none →
        updateQuantity cart pid change = cart) ∧
    (∀ item, cart.find? (fun item => item.product_id == pid) = some item →
        item.quantity + change ≤ 0 →
        updateQuantity cart pid change = removeFromCart cart pid ∧
        linesFor (updateQuantity cart pid change) pid = []) ∧
    (∀ item, cart.find? (fun item => item.product_id == pid) = some item →
        0 < item.quantity + change →
        updateQuantity cart pid change
          = cart.map (fun it =>
              if it.product_id == pid then
                { it with quantity := item.quantity + change }
              else it)) ∧
    ((∀ it ∈ cart, 1 ≤ it.quantity) →
        ∀ it ∈ updateQuantity cart pid change, 1 ≤ it.quantity) ∧
    (∀ item : CartItem, item.quantity = 1 → item.product_id = pid →
        updateQuantity [item] pid (-1) = []) := by
  refine ⟨updateQuantity_of_find?_none cart pid change, ?_, ?_, ?_, ?_⟩
  · intro item hfind hle
    refine ⟨updateQuantity_of_find?_some_le cart pid change item hfind hle, ?_⟩
    rw [updateQuantity_of_find?_some_le cart pid change item hfind hle]
    exact linesFor_removeFromCart cart pid
  · exact fun item hfind hpos =>
      updateQuantity_of_find?_some_pos cart pid change item hfind hpos
  · intro hq it hit
    cases hfind : cart.find? (fun item => item.product_id == pid) with
    | none =>
        rw [updateQuantity_of_find?_none cart pid change hfind] at hit
        exact hq it hit
    | some found =>
        by_cases hle : found.quantity + change ≤ 0
        · rw [updateQuantity_of_find?_some_le cart pid change found hfind hle]
            at hit
          exact hq it (List.mem_filter.1 hit).1
        · rw [updateQuantity_of_find?_some_pos cart pid change found hfind
            (by omega)] at hit
          obtain ⟨a, ha, hfa⟩ := List.mem_map.1 hit
          by_cases hpid : (a.product_id == pid) = true
          · rw [if_pos hpid] at hfa
            rw [← hfa]
            simp only
            omega
          · rw [if_neg hpid] at hfa
            rw [← hfa]
            exact hq a ha
  · intro item hq hpid
    have hpred : (item.product_id == pid) = true := by simp [hpid]
    have hfind : List.find? (fun it => it.product_id == pid) [item]
        = some item := by
      simp [List.find?, hpred]
    have := updateQuantity_of_find?_some_le [item] pid (-1) item hfind
      (by omega)
    rw [this]
    have hbne : (item.product_id != pid) = false := by
      simp [bne, hpred]
    simp [List.filter, hbne]

theorem updateQuantity_delta_semantics_witness :
    updateQuantity [sampleItem] 1 (-1) = removeFromCart [sampleItem] 1 ∧
    linesFor (updateQuantity [sampleItem] 1 (-1)) 1 = [] :=
  (updateQuantity_delta_semantics [sampleItem] 1 (-1)).2.1 sampleItem rfl
    (by decide)

lemma nodup_cartIds_filter (cart : List CartItem) (q : CartItem → Bool)
    (h : (cartIds cart).Nodup) : (cartIds (cart.filter q)).Nodup := by
  unfold cartIds at h ⊢
  exact h.sublist ((List.filter_sublist cart).map (fun item => item.product_id))

lemma not_mem_cartIds_of_linesFor_nil {cart : List CartItem} {pid : Nat}
    (h : linesFor cart pid = []) : pid ∉ cartIds cart := by
  intro hmem
  obtain ⟨it, hit, hid⟩ := List.mem_map.1 hmem
  have hnone := (find?_eq_none_iff_linesFor_nil cart pid).2 h
  have hfalse := List.find?_eq_none.1 hnone it hit
  simp [hid] at hfalse

lemma cartIds_addToCart_of_linesFor_nil (cart : List CartItem) (p : Product)
    (h : linesFor cart p.id = []) :
    cartIds (addToCart cart p) = cartIds cart ++ [p.id] := by
  rw [addToCart_of_linesFor_nil cart p h]
  unfold cartIds
  rw [List.map_append]
  rfl

lemma cartIds_addToCart_of_linesFor_ne_nil (cart : List CartItem)
    (p : Product) (h : linesFor cart p.id ≠ []) :
    cartIds (addToCart cart p) = cartIds cart := by
  rw [addToCart_of_linesFor_ne_nil cart p h]
  exact cartIds_map_presId _ (setQty_presId p.id (fun it => it.quantity + 1))
    cart

lemma WFCart_addToCart (cart : List CartItem) (p : Product)
    (h : WFCart cart) : WFCart (addToCart cart p) := by
  by_cases hl : linesFor cart p.id = []
  · constructor
    · rw [cartIds_addToCart_of_linesFor_nil cart p hl]
      simp [List.nodup_append, h.1, not_mem_cartIds_of_linesFor_nil hl]
    · intro it hit
      rw [addToCart_of_linesFor_nil cart p hl] at hit
      rcases List.mem_append.1 hit with hin | hin
      · exact h.2 it hin
      · rw [List.mem_singleton.1 hin]
  · constructor
    · rw [cartIds_addToCart_of_linesFor_ne_nil cart p hl]
      exact h.1
    · intro it hit
      rw [addToCart_of_linesFor_ne_nil cart p hl] at hit
      obtain ⟨a, ha, hfa⟩ := List.mem_map.1 hit
      by_cases hpid : (a.product_id == p.id) = true
      · rw [if_pos hpid] at hfa
        rw [← hfa]
        have := h.2 a ha
        simp only
        omega
      · rw [if_neg hpid] at hfa
        rw [← hfa]
        exact h.2 a ha

lemma WFCart_filter (cart : List CartItem) (q : CartItem → Bool)
    (h : WFCart cart) : WFCart (cart.filter q) :=
  ⟨nodup_cartIds_filter cart q h.1,
    fun it hit => h.2 it (List.mem_filter.1 hit).1⟩

lemma WFCart_updateQuantity (cart : List CartItem) (pid : Nat) (change : Int)
    (h : WFCart cart) : WFCart (updateQuantity cart pid change) := by
  cases hfind : cart.find? (fun item => item.product_id == pid) with
  | none => rw [updateQuantity_of_find?_none cart pid change hfind]; exact h
  | some found =>
      by_cases hle : found.quantity + change ≤ 0
      · rw [updateQuantity_of_find?_some_le cart pid change found hfind hle]
        exact WFCart_filter cart _ h
      · rw [updateQuantity_of_find?_some_pos cart pid change found hfind
          (by omega)]
        constructor
        · rw [cartIds_map_presId _
            (setQty_presId pid (fun _ => found.quantity + change)) cart]
          exact h.1
        · intro it hit
          obtain ⟨a, ha, hfa⟩ := List.mem_map.1 hit
          by_cases hpid : (a.product_id == pid) = true
          · rw [if_pos hpid] at hfa
            rw [← hfa]
            simp only
            omega
          · rw [if_neg hpid] at hfa
            rw [← hfa]
            exact h.2 a ha

lemma WFCart_clearCart (cart : List CartItem) (confirmed : Bool)
    (h : WFCart cart) : WFCart (clearCart cart confirmed) := by
  unfold clearCart
  by_cases he : cart.isEmpty = true
  · rw [if_pos he]; exact h
  · rw [if_neg he]
    cases confirmed with
    | true => exact ⟨List.nodup_nil, by intro it hit; cases hit⟩
    | false => exact h

/-- Claim C6: every cart operation preserves the cart invariants — no two
lines share a product id and every line has quantity ≥ 1 — and line order is
stable: `addToCart` appends a new line at the end or keeps the id sequence
unchanged when it merges, and a quantity change through `updateQuantity`
keeps the id sequence unchanged. -/
theorem cart_ops_preserve_invariants (cart : List CartItem) (p : Product)
    (pid : Nat) (change : Int) (confirmed : Bool) (h : WFCart cart) :
    WFCart (addToCart cart p) ∧
    WFCart (updateQuantity cart pid change) ∧
    WFCart (removeFromCart cart pid) ∧
    WFCart (clearCart cart confirmed) ∧
    (linesFor cart p.id = [] →
        cartIds (addToCart cart p) = cartIds cart ++ [p.id]) ∧
    (linesFor cart p.id ≠ [] → cartIds (addToCart cart p) = cartIds cart) ∧
    (∀ item, cart.find? (fun it => it.product_id == pid) = some item →
        0 < item.quantity + change →
        cartIds (updateQuantity cart pid change) = cartIds cart) := by
  refine ⟨WFCart_addToCart cart p h, WFCart_updateQuantity cart pid change h,
    WFCart_filter cart _ h, WFCart_clearCart cart confirmed h,
    cartIds_addToCart_of_linesFor_nil cart p,
    cartIds_addToCart_of_linesFor_ne_nil cart p, ?_⟩
  intro item hfind hpos
  rw [updateQuantity_of_find?_some_pos cart pid change item hfind hpos]
  exact cartIds_map_presId _
    (setQty_presId pid (fun _ => item.quantity + change)) cart

theorem cart_ops_preserve_invariants_witness :
    WFCart [sampleItem] ∧ WFCart (addToCart [sampleItem] pB) :=
  ⟨by decide,
    (cart_ops_preserve_invariants [sampleItem] pB 1 1 true (by decide)).1⟩

lemma foldl_add_price (cart : List CartItem) (a : ℚ) :
    cart.foldl (fun sum item => sum + item.price * (item.quantity : ℚ)) a
      = a + (cart.map (fun item => item.price * (item.quantity : ℚ))).sum := by
  induction cart generalizing a with
  | nil => simp
  | cons x xs ih =>
      rw [List.foldl_cons, List.map_cons, List.sum_cons, ih, add_assoc]

/-- Claim C7: `calculateTotals` returns subtotal = Σ unit price × quantity
over all lines, tax = subtotal × 0.08 and total = subtotal + tax; on the
cart built by adding a 10.00 product twice and a 5.00 product once the
result is subtotal 25.00, tax 2.00 and total 27.00. -/
theorem calculateTotals_formula :
    (∀ cart : List CartItem,
        (calculateTotals cart).subtotal
          = (cart.map (fun item => item.price * (item.quantity : ℚ))).sum ∧
        (calculateTotals cart).tax
          = (calculateTotals cart).subtotal * (8 / 100) ∧
        (calculateTotals cart).total
          = (calculateTotals cart).subtotal + (calculateTotals cart).tax) ∧
    (calculateTotals (addToCart (addToCart (addToCart [] pA) pA) pB)).subtotal
      = 25 ∧
    (calculateTotals (addToCart (addToCart (addToCart [] pA) pA) pB)).tax
      = 2 ∧
    (calculateTotals (addToCart (addToCart (addToCart [] pA) pA) pB)).total
      = 27 := by
  have hcart : addToCart (addToCart (addToCart [] pA) pA) pB
      = [{ product_id := 1, name := "Widget", price := 10, quantity := 2 },
         { product_id := 2, name := "Gizmo", price := 5, quantity := 1 }] :=
    rfl
  have hsub :
      (calculateTotals
          (addToCart (addToCart (addToCart [] pA) pA) pB)).subtotal = 25 := by
    rw [hcart]
    unfold calculateTotals
    simp only [List.foldl_cons, List.foldl_nil]
    push_cast
    norm_num
  have htax :
      (calculateTotals
          (addToCart (addToCart (addToCart [] pA) pA) pB)).tax = 2 := by
    have hdef :
        (calculateTotals
            (addToCart (addToCart (addToCart [] pA) pA) pB)).tax
          = (calculateTotals
              (addToCart (addToCart (addToCart [] pA) pA) pB)).subtotal
              * taxRate := rfl
    rw [hdef, hsub]
    norm_num [taxRate]
  have htot :
      (calculateTotals
          (addToCart (addToCart (addToCart [] pA) pA) pB)).total = 27 := by
    have hdef :
        (calculateTotals
            (addToCart (addToCart (addToCart [] pA) pA) pB)).total
          = (calculateTotals
              (addToCart (addToCart (addToCart [] pA) pA) pB)).subtotal
            + (calculateTotals
                (addToCart (addToCart (addToCart [] pA) pA) pB)).tax := rfl
    rw [hdef, hsub, htax]
    norm_num
  refine ⟨?_, hsub, htax, htot⟩
  intro cart
  refine ⟨?_, rfl, rfl⟩
  unfold calculateTotals
  rw [foldl_add_price cart 0, zero_add]

/-- Claim C9: a barcode lookup that the backend answers with 404 alerts
exactly the not-found message `"Product not found!"`; any other lookup
failure alerts the transport-derived message (`detail` when present, else
the error's `message`, else `"Search failed"`); and the component state, so
in particular the cart, is unchanged in every failure case. -/
theorem barcode_lookup_notfound_distinguished (s : PosState)
    (st : Nat) (d : Option String) (m : String)
    (h : jsTrim s.barcodeInput ≠ "") :
    ((searchByBarcode s (.httpError st d m)).state = s) ∧
    ((searchByBarcode s (.networkError m)).state = s) ∧
    (st = 404 →
        (searchByBarcode s (.httpError st d m)).alertMessage
          = some "Product not found!") ∧
    (st ≠ 404 →
        (searchByBarcode s (.httpError st d m)).alertMessage
          = some (jsOrOpt d (jsOrString m "Search failed"))) ∧
    ((searchByBarcode s (.networkError m)).alertMessage
        = some (jsOrString m "Search failed")) := by
  unfold searchByBarcode
  rw [if_neg h, if_neg h]
  refine ⟨rfl, rfl, ?_, ?_, rfl⟩
  · intro h404
    simp [searchErrorMessage, h404]
  · intro h404
    simp [searchErrorMessage, h404]

/-- A component state with the unmatched identifier `"UNKNOWN"` typed into
the barcode field. -/
def unknownScanState : PosState :=
  { products := [pA, pB], cart := [sampleItem],
    customerName := "Alice", paymentMethod := "card",
    barcodeInput := "UNKNOWN", showReceipt := false, currentInvoice := none }

theorem barcode_lookup_notfound_distinguished_witness :
    (searchByBarcode unknownScanState
        (.httpError 404 none "Request failed with status code 404")).alertMessage
      = some "Product not found!" ∧
    (searchByBarcode unknownScanState
        (.httpError 404 none "Request failed with status code 404")).state
      = unknownScanState :=
  ⟨(barcode_lookup_notfound_distinguished unknownScanState 404 none
      "Request failed with status code 404" (by decide)).2.2.1 rfl,
    (barcode_lookup_notfound_distinguished unknownScanState 404 none
      "Request failed with status code 404" (by decide)).1⟩
